import Mathlib

/-!
Verification of the jobber repository's core against its specification.

The development shallowly embeds the two subsystems the claims are about:

* `Retryhttp` — the retrying HTTP transport (`scrape/retryhttp`),
  modelled from the current implementation of `Client.Do`: the one the
  package's own test file (`retryhttp_test.go`) compiles against, with a
  client-level retryable-status set extendable via
  `WithExtraRetryableStatus`, a body buffered once and re-installed via
  `req.GetBody` before every attempt, and a response returned unchanged
  for any non-retryable status.

* `Jobber` — the query-lifecycle orchestrator (`jobber/jobber.go`)
  together with the repository operations of `db/query.sql` over the
  relational state of `schema.sql`.  Timestamps are naturals (seconds),
  tables are lists of rows, and `CURRENT_TIMESTAMP` is an explicit
  `now` parameter.  The scrape adapter invoked by `runQuery` is
  modelled by the data it returns for the tick under study, and
  per-row persistence failures by a fault predicate on offer ids.
-/

namespace Retryhttp

/-- The `maxRetries` from retryhttp: the exponential backoff limit. -/
def maxRetries : Nat := 5

/-- The client's state: the set of retryable status codes, modelled as
the list of keys the Go `map[int]bool` holds `true` for.  The random
user-agent option does not affect the retry logic and is not modelled. -/
structure Client where
  isRetryable : List Nat
  deriving DecidableEq

/-- Membership-preserving insertion, mirroring `map[int]bool` writes. -/
def insertStatus (s : Nat) (l : List Nat) : List Nat :=
  if l.contains s then l else l ++ [s]

/-- An option mutates the client, as in Go's functional options. -/
def Options := Client → Client

/-- The `WithExtraRetryableStatus`: adds custom retryable statuses to the pool. -/
def withExtraRetryableStatus (status : List Nat) : Options :=
  fun c => { c with isRetryable := status.foldl (fun l v => insertStatus v l) c.isRetryable }

/-- The `New`: the default retryable set is
408, 425, 429, 500, 502, 503, 504 (in the literal's order), then the
options are applied. -/
def newClient (opts : List Options) : Client :=
  opts.foldl (fun c o => o c) { isRetryable := [408, 425, 429, 500, 502, 503, 504] }

/-- Result of `Client.Do`: either the response (its status) handed back to
the caller with a nil error, or the distinguished `ErrRetryable` failure
produced when retries are exhausted, carrying the status code of the last
response (`"%w with status code %d"`). -/
inductive DoResult where
  | ok (status : Nat)
  | errRetryable (lastStatus : Nat)
  deriving DecidableEq

/-- One body reader: `none` models a nil `req.Body`, `some bs` a reader
whose unconsumed content is `bs`. -/
abbrev Body := Option (List Nat)

/-- The retry loop of `Client.Do`.  `buffered` is the byte slice read from
the original body once before the loop (`req.GetBody` returns a fresh
reader over it); `curBody` is the current `req.Body`; `retries` the Go
counter; `fuel` decreases on every iteration and starts at
`maxRetries + 1`, which the `retries >= maxRetries` check makes an upper
bound on the number of attempts.  `transport` gives the status code the
wrapped client returns on the n-th attempt (0-based).  The first
component of the result records, per attempt, the body bytes that
attempt could read — the trace the test file's mock transport records. -/
def doLoop (c : Client) (buffered : Body) (transport : Nat → Nat) :
    Body → Nat → Nat → List Body × DoResult
  | _, _, 0 => ([], .errRetryable 0)
  | curBody, retries, fuel + 1 =>
    let status := transport retries
    let sent := curBody
    if c.isRetryable.contains status then
      if maxRetries ≤ retries then ([sent], .errRetryable status)
      else
        -- reset the body for the next try via req.GetBody
        let nextBody : Body := match curBody with
          | none => none
          | some _ => buffered
        let rest := doLoop c buffered transport nextBody (retries + 1) fuel
        (sent :: rest.1, rest.2)
    else ([sent], .ok status)

/-- The `Client.Do`: if the request has a body it is read fully once and
`req.GetBody` re-creates it from the buffered bytes, first for the first
attempt and then before every retry; then the attempt loop runs. -/
def clientDo (c : Client) (reqBody : Body) (transport : Nat → Nat) :
    List Body × DoResult :=
  match reqBody with
  | none => doLoop c none transport none 0 (maxRetries + 1)
  | some bs => doLoop c (some bs) transport (some bs) 0 (maxRetries + 1)

end Retryhttp

namespace Jobber

/-- A row of `queries` (schema.sql): surrogate id, natural key
`(keywords, location)`, `created_at` and `queried_at` (defaulting to the
insertion time), and the nullable `updated_at`. -/
structure Query where
  id : Nat
  keywords : String
  location : String
  createdAt : Nat
  queriedAt : Nat
  updatedAt : Option Nat
  deriving DecidableEq

/-- A row of `offers` (schema.sql with the columns the current
`CreateOffer` fills): source-supplied string id, attributes, and
`posted_at`.  The `created_at` column is filled by its SQL default and
plays no role in any claim, so it is not carried. -/
structure Offer where
  id : String
  title : String
  company : String
  location : String
  postedAt : Nat
  description : String
  source : String
  url : String
  deriving DecidableEq

/-- A row of `query_scraper_status`: per `(query_id, scraper_name)`
bookkeeping with a nullable `scraped_at`. -/
structure ScraperStatus where
  queryId : Nat
  scraperName : String
  scrapedAt : Option Nat
  deriving DecidableEq

/-- The relational state: the four tables plus the sequence feeding the
`queries` surrogate key.  `query_offers` rows are `(query_id, offer_id)`
pairs. -/
structure DB where
  queries : List Query
  offers : List Offer
  queryOffers : List (Nat × String)
  scraperStatus : List ScraperStatus
  nextId : Nat
  deriving DecidableEq

/-- Error kinds surfaced by the repository layer. -/
inductive DBErr where
  | uniqueViolation
  | notFound
  | other
  deriving DecidableEq

/-- The `CreateQuery` (query.sql): insert `(keywords, location)`; the unique
constraint on the natural key turns a duplicate into a
unique-violation.  `created_at` and `queried_at` default to the current
timestamp, `updated_at` to null. -/
def dbCreateQuery (now : Nat) (k l : String) (db : DB) : Except DBErr (Query × DB) :=
  if db.queries.any (fun q => q.keywords == k && q.location == l) then
    .error .uniqueViolation
  else
    let q : Query :=
      { id := db.nextId, keywords := k, location := l,
        createdAt := now, queriedAt := now, updatedAt := none }
    .ok (q, { db with queries := db.queries ++ [q], nextId := db.nextId + 1 })

/-- The `GetQuery` (query.sql): select by the natural key. -/
def dbGetQuery (k l : String) (db : DB) : Option Query :=
  db.queries.find? (fun q => q.keywords == k && q.location == l)

/-- The `DeleteQuery` (query.sql): delete by id; the `ON DELETE CASCADE`
foreign keys of `query_offers` and `query_scraper_status` drop the
dependent rows. -/
def dbDeleteQuery (qid : Nat) (db : DB) : DB :=
  { db with
    queries := db.queries.filter (fun q => !(q.id == qid)),
    queryOffers := db.queryOffers.filter (fun p => !(p.1 == qid)),
    scraperStatus := db.scraperStatus.filter (fun s => !(s.queryId == qid)) }

/-- The `UpdateQueryQAT` (query.sql): set `queried_at` to the current time. -/
def dbUpdateQueryQAT (now : Nat) (qid : Nat) (db : DB) : DB :=
  { db with queries := db.queries.map (fun q =>
      if q.id == qid then { q with queriedAt := now } else q) }

/-- The `UpdateQueryUAT` (query.sql): set `updated_at` to the current time.
No Go code path invokes this statement. -/
def dbUpdateQueryUAT (now : Nat) (qid : Nat) (db : DB) : DB :=
  { db with queries := db.queries.map (fun q =>
      if q.id == qid then { q with updatedAt := some now } else q) }

/-- The `CreateOffer` (query.sql): `INSERT ... ON CONFLICT (id) DO NOTHING`. -/
def dbCreateOffer (o : Offer) (db : DB) : DB :=
  if db.offers.any (fun x => x.id == o.id) then db
  else { db with offers := db.offers ++ [o] }

/-- The `CreateQueryOfferAssoc` (query.sql):
`INSERT ... ON CONFLICT (query_id, offer_id) DO NOTHING`. -/
def dbCreateQueryOfferAssoc (qid : Nat) (oid : String) (db : DB) : DB :=
  if db.queryOffers.any (fun p => p.1 == qid && p.2 == oid) then db
  else { db with queryOffers := db.queryOffers ++ [(qid, oid)] }

/-- Insertion step of `ORDER BY o.posted_at DESC`. -/
def insertDesc (o : Offer) : List Offer → List Offer
  | [] => [o]
  | x :: xs => if x.postedAt < o.postedAt then o :: x :: xs else x :: insertDesc o xs

/-- The `ORDER BY o.posted_at DESC` over a result set. -/
def sortByPostedDesc (l : List Offer) : List Offer :=
  l.foldr insertDesc []

/-- The `ListOffers` (query.sql): join `queries → query_offers → offers` on
the given query id, ordered by `posted_at` descending.  The statement
has no `posted_at` window condition. -/
def dbListOffers (qid : Nat) (db : DB) : List Offer :=
  if db.queries.any (fun q => q.id == qid) then
    sortByPostedDesc
      ((db.queryOffers.filter (fun p => p.1 == qid)).filterMap
        (fun p => db.offers.find? (fun o => o.id == p.2)))
  else []

/-- The `DeleteOldOffers` (query.sql): delete offers with
`posted_at < NOW() - INTERVAL '7 days'`. -/
def dbDeleteOldOffers (now : Nat) (db : DB) : DB :=
  { db with offers := db.offers.filter (fun o => !(decide (o.postedAt < now - 7 * 24 * 3600))) }

/-- The `GetQueryScraper` (query.sql): select the query by id; if it exists,
lazily ensure its `query_scraper_status` row for the scraper exists and
return the joined view `(query row, scraped_at)` together with the
possibly extended state.  When the query is absent the statement yields
no row (`pgx.ErrNoRows` for the caller). -/
def dbGetQueryScraper (qid : Nat) (name : String) (db : DB) :
    Option (Query × Option Nat) × DB :=
  match db.queries.find? (fun q => q.id == qid) with
  | none => (none, db)
  | some q =>
    match db.scraperStatus.find? (fun s => s.queryId == qid && s.scraperName == name) with
    | some s => (some (q, s.scrapedAt), db)
    | none =>
      (some (q, none),
       { db with scraperStatus :=
          db.scraperStatus ++ [{ queryId := qid, scraperName := name, scrapedAt := none }] })

/-- The `UpdateQueryScrapedAt` (query.sql): set the status row's
`scraped_at` to the current time. -/
def dbUpdateQueryScrapedAt (now : Nat) (qid : Nat) (name : String) (db : DB) : DB :=
  { db with scraperStatus := db.scraperStatus.map (fun s =>
      if s.queryId == qid && s.scraperName == name then { s with scrapedAt := some now } else s) }

/-- A scheduled gocron job as the orchestrator registers it: the tag set,
and (from the closed-over task and cron expression) the query id, the
scraper name, and the minute of the `"M * * * *"` cron pattern. -/
structure SchedJob where
  tags : List String
  queryId : Nat
  scraperName : String
  cronMinute : Nat
  deriving DecidableEq

/-- The `Scheduler.RemoveByTags` with one tag: drop every job whose tag set
contains it. -/
def removeByTag (tag : String) (jobs : List SchedJob) : List SchedJob :=
  jobs.filter (fun j => !(j.tags.contains tag))

/-- The `Jobber.scheduleQuery`: for every scraper name register one cron job
`"M * * * *"` with `M` the minute of `created_at`, tagged with
`keywords + location` and the scraper name. -/
def scheduleQuery (scrapers : List String) (q : Query) (jobs : List SchedJob) :
    List SchedJob :=
  scrapers.foldl
    (fun js name =>
      js ++ [{ tags := [q.keywords ++ q.location, name],
               queryId := q.id, scraperName := name,
               cronMinute := q.createdAt / 60 % 60 }])
    jobs

/-- Orchestrator state: the database and the scheduler's job registry. -/
structure JState where
  db : DB
  jobs : List SchedJob
  deriving DecidableEq

/-- Outcome of `Jobber.CreateQuery` as far as the embedding reaches: the
synchronous barrier and its timeout are concurrency and are not
modelled, so the timed-out result does not arise here. -/
inductive CreateRes where
  | ok
  | errOther
  deriving DecidableEq

/-- The `Jobber.CreateQuery`: insert the query; a unique-violation is
swallowed and reported as success (the caller can already form the feed
URL); on success the query is scheduled for every scraper. -/
def jobberCreateQuery (now : Nat) (scrapers : List String) (k l : String)
    (s : JState) : CreateRes × JState :=
  match dbCreateQuery now k l s.db with
  | .error .uniqueViolation => (.ok, s)
  | .error _ => (.errOther, s)
  | .ok (q, db1) => (.ok, { db := db1, jobs := scheduleQuery scrapers q s.jobs })

/-- The `Jobber.ListOffers`: look up the query by its natural key
(`not-found` propagates unchanged), best-effort bump of `queried_at`,
then `ListOffers` on the id; the offers are returned together with the
query row's `updated_at` as the freshness value. -/
def jobberListOffers (now : Nat) (k l : String) (db : DB) :
    Except DBErr (List Offer × Option Nat) × DB :=
  match dbGetQuery k l db with
  | none => (.error .notFound, db)
  | some q =>
    let db1 := dbUpdateQueryQAT now q.id db
    (.ok (dbListOffers q.id db1, q.updatedAt), db1)

/-- What the scrape adapter hands back for the tick under study: the
offer slice and whether its error return was non-nil. -/
structure ScrapeOutcome where
  offers : List Offer
  hasErr : Bool
  deriving DecidableEq

/-- Observable events of one `runQuery` tick: whether the adapter's
scrape was invoked, whether a scrape error was logged (`runQuery`
returns nothing, so logging is the only place errors go), and whether
the expiration branch deleted the query. -/
structure RunTrace where
  scraped : Bool
  loggedScrapeErr : Bool
  deletedQuery : Bool
  deriving DecidableEq

/-- The per-offer persistence loop of `runQuery`: `CreateOffer` then
`CreateQueryOfferAssoc` for each offer; a failing insert is logged and
`continue`s (skipping that offer's association), a failing association
is logged and the loop moves on.  `offerFault`/`assocFault` say which
offer ids the database rejects with an error. -/
def persistOffers (qid : Nat) (offers : List Offer)
    (offerFault assocFault : String → Bool) (db : DB) : DB :=
  offers.foldl
    (fun d o =>
      if offerFault o.id then d
      else
        let d1 := dbCreateOffer o d
        if assocFault o.id then d1
        else dbCreateQueryOfferAssoc qid o.id d1)
    db

/-- The `Jobber.runQuery`: look up the scraper (missing → log and return),
`GetQueryScraper` (no row → log and return), delete-and-unschedule any
query unused for more than 7 days before scraping, otherwise scrape,
log a non-nil scrape error, persist the returned offers, and bump the
scraper's `scraped_at` when any offers were returned.  `scrList` maps
each scraper name to what its scrape returns this tick. -/
def runQuery (now : Nat) (scrList : List (String × ScrapeOutcome))
    (offerFault assocFault : String → Bool) (qid : Nat) (name : String)
    (s : JState) : JState × RunTrace :=
  match scrList.find? (fun p => p.1 == name) with
  | none => (s, { scraped := false, loggedScrapeErr := false, deletedQuery := false })
  | some (_, outcome) =>
    match dbGetQueryScraper qid name s.db with
    | (none, db1) => ({ db := db1, jobs := s.jobs },
        { scraped := false, loggedScrapeErr := false, deletedQuery := false })
    | (some (q, _scrapedAt), db1) =>
      if 7 * 24 * 3600 < now - q.queriedAt then
        ({ db := dbDeleteQuery q.id db1,
           jobs := removeByTag (q.keywords ++ q.location) s.jobs },
         { scraped := false, loggedScrapeErr := false, deletedQuery := true })
      else
        let db3 := if 0 < outcome.offers.length then
            dbUpdateQueryScrapedAt now qid name
              (persistOffers q.id outcome.offers offerFault assocFault db1)
          else db1
        ({ db := db3, jobs := s.jobs },
         { scraped := true, loggedScrapeErr := outcome.hasErr, deletedQuery := false })

/-- The stale offer of the test seed (`db/test.go`): posted 8 days
before the moment of observation. -/
def c1Offer : Offer :=
  { id := "offer_001", title := "Senior Python Developer", company := "TechCorp Inc",
    location := "San Francisco, CA", postedAt := 0, description := "",
    source := "LinkedIn", url := "" }

/-- Database at `now = 8 days`: one query whose only associated offer
was posted 8 days ago and has not been pruned yet. -/
def c1DB : DB :=
  { queries := [{ id := 1, keywords := "python", location := "san francisco",
                  createdAt := 0, queriedAt := 691200, updatedAt := none }],
    offers := [c1Offer], queryOffers := [(1, "offer_001")],
    scraperStatus := [], nextId := 2 }

/-- A freshly created query: `updated_at` starts out null. -/
def c2Query : Query :=
  { id := 1, keywords := "golang", location := "berlin",
    createdAt := 1000, queriedAt := 1000, updatedAt := none }

/-- The one offer the mock adapter returns. -/
def c2Offer : Offer :=
  { id := "X", title := "golang jobs in berlin", company := "ACME",
    location := "berlin", postedAt := 1000, description := "",
    source := "Mock", url := "" }

/-- Orchestrator state holding only the fresh query. -/
def c2State : JState :=
  { db := { queries := [c2Query], offers := [], queryOffers := [],
            scraperStatus := [], nextId := 2 },
    jobs := [] }

/-- The state after one `runQuery` tick in which the adapter returned
`c2Offer` with a nil error. -/
def c2Run : JState :=
  (runQuery 1000 [("Mock", { offers := [c2Offer], hasErr := false })]
    (fun _ => false) (fun _ => false) 1 "Mock" c2State).1

/-- Query `("ab", "c")`, expired: `queried_at` 8+ days before the tick. -/
def c10Q1 : Query :=
  { id := 1, keywords := "ab", location := "c",
    createdAt := 0, queriedAt := 0, updatedAt := none }

/-- Query `("a", "bc")`, still in active use at the tick. -/
def c10Q2 : Query :=
  { id := 2, keywords := "a", location := "bc",
    createdAt := 0, queriedAt := 700000, updatedAt := none }

/-- Both queries scheduled for the single scraper `"Mock"`. -/
def c10State : JState :=
  { db := { queries := [c10Q1, c10Q2], offers := [], queryOffers := [],
            scraperStatus := [], nextId := 3 },
    jobs := scheduleQuery ["Mock"] c10Q2 (scheduleQuery ["Mock"] c10Q1 []) }

/-- The tick that expires query 1. -/
def c10Run : JState × RunTrace :=
  runQuery 700000 [("Mock", { offers := [], hasErr := false })]
    (fun _ => false) (fun _ => false) 1 "Mock" c10State

/-- An empty orchestrator state. -/
def c9Start : JState :=
  { db := { queries := [], offers := [], queryOffers := [],
            scraperStatus := [], nextId := 1 },
    jobs := [] }

/-- A query whose `queried_at` lies more than 7 days before the tick. -/
def c7Query : Query :=
  { id := 1, keywords := "ab", location := "c",
    createdAt := 0, queriedAt := 0, updatedAt := none }

/-- State with the expired query, one of its associations, its status
row, and its scheduled job. -/
def c7State : JState :=
  { db := { queries := [c7Query], offers := [],
            queryOffers := [(1, "o1")],
            scraperStatus := [{ queryId := 1, scraperName := "Mock", scrapedAt := none }],
            nextId := 2 },
    jobs := scheduleQuery ["Mock"] c7Query [] }

/-- A fresh query for the partial-success scenario. -/
def c8Query : Query :=
  { id := 1, keywords := "golang", location := "berlin",
    createdAt := 2000, queriedAt := 2000, updatedAt := none }

/-- State holding only the fresh query. -/
def c8State : JState :=
  { db := { queries := [c8Query], offers := [], queryOffers := [],
            scraperStatus := [], nextId := 2 },
    jobs := [] }

/-- First offer of the partial-success batch; its insert will fault. -/
def c8OfferF : Offer :=
  { id := "F", title := "o1", company := "a", location := "berlin",
    postedAt := 2000, description := "", source := "Mock", url := "" }

/-- Second offer of the batch, behind the faulting one. -/
def c8OfferB : Offer :=
  { id := "B", title := "o2", company := "b", location := "berlin",
    postedAt := 2000, description := "", source := "Mock", url := "" }

end Jobber

open Retryhttp Jobber

/-- Every iteration of the retry loop that starts with the buffered body
installed sends exactly the buffered bytes: the reset performed before a
retry re-creates the reader from the same buffer. -/
theorem Retryhttp.doLoop_sent_eq_buffered (c : Client) (bs : List Nat)
    (transport : Nat → Nat) :
    ∀ fuel retries sent,
      sent ∈ (doLoop c (some bs) transport (some bs) retries fuel).1 → sent = some bs := by
  intro fuel
  induction fuel with
  | zero => intro retries sent h; simp [doLoop] at h
  | succ n ih =>
    intro retries sent h
    simp only [doLoop] at h
    by_cases hc : c.isRetryable.contains (transport retries) = true
    · rw [if_pos hc] at h
      by_cases hr : maxRetries ≤ retries
      · rw [if_pos hr] at h
        simpa using h
      · rw [if_neg hr] at h
        rcases List.mem_cons.mp h with h1 | h2
        · exact h1
        · exact ih (retries + 1) sent h2
    · rw [if_neg hc] at h
      simpa using h

/-- Claim C3: when the request has a body, `Do` buffers it once before
the first attempt and every attempt — the first as well as each retry —
sends exactly those bytes: each element of the per-attempt body trace
equals the buffered body. -/
theorem c3_every_attempt_sends_buffered_body (c : Client) (bs : List Nat)
    (transport : Nat → Nat) :
    ∀ sent ∈ (clientDo c (some bs) transport).1, sent = some bs := by
  intro sent h
  exact doLoop_sent_eq_buffered c bs transport (maxRetries + 1) 0 sent h

/-- Witness for C3: a request with body bytes `[1, 2, 3]` retried
through six 503 responses has its first recorded attempt body equal to
the buffered bytes. -/
theorem c3_every_attempt_sends_buffered_body_witness :
    (clientDo (newClient []) (some [1, 2, 3]) (fun _ => 503)).1.headI = some [1, 2, 3] :=
  c3_every_attempt_sends_buffered_body (newClient []) [1, 2, 3] (fun _ => 503)
    ((clientDo (newClient []) (some [1, 2, 3]) (fun _ => 503)).1.headI) (by decide)

/-- An iteration whose response status is not retryable ends the loop at
once, handing the response back. -/
theorem Retryhttp.doLoop_nonretryable (c : Client) (buffered : Body)
    (transport : Nat → Nat) (curBody : Body) (retries fuel : Nat)
    (h : c.isRetryable.contains (transport retries) = false) :
    doLoop c buffered transport curBody retries (fuel + 1)
      = ([curBody], .ok (transport retries)) := by
  simp only [doLoop, h]
  simp

/-- Claim C4: when the first response's status is not in the retryable
set, `Do` makes exactly one attempt and hands that response back with a
nil error, whatever the status value is. -/
theorem c4_non_retryable_returns_response (c : Client) (b : Body)
    (transport : Nat → Nat)
    (h : c.isRetryable.contains (transport 0) = false) :
    clientDo c b transport = ([b], .ok (transport 0)) := by
  cases b with
  | none => exact doLoop_nonretryable c none transport none 0 maxRetries h
  | some bs => exact doLoop_nonretryable c (some bs) transport (some bs) 0 maxRetries h

/-- Witness for C4: a 403 against the default client is answered in one
attempt with the response itself. -/
theorem c4_non_retryable_returns_response_witness :
    clientDo (newClient []) none (fun _ => 403) = ([none], .ok 403) :=
  c4_non_retryable_returns_response (newClient []) none (fun _ => 403) (by decide)

/-- If every status up to the exhaustion point is retryable, the loop
performs exactly `fuel` further attempts and fails with the
retryable-exhausted error carrying the status of the final attempt. -/
theorem Retryhttp.doLoop_exhausted (c : Client) (buffered : Body)
    (transport : Nat → Nat)
    (h : ∀ i, i ≤ maxRetries → c.isRetryable.contains (transport i) = true) :
    ∀ fuel retries curBody, fuel + retries = maxRetries + 1 → retries ≤ maxRetries →
      (doLoop c buffered transport curBody retries fuel).1.length = fuel
      ∧ (doLoop c buffered transport curBody retries fuel).2
          = .errRetryable (transport maxRetries) := by
  intro fuel
  induction fuel with
  | zero => intro retries curBody hsum hle; omega
  | succ n ih =>
    intro retries curBody hsum hle
    simp only [doLoop, h retries hle, if_pos]
    by_cases hr : maxRetries ≤ retries
    · have heq : retries = maxRetries := Nat.le_antisymm hle hr
      have hn : n = 0 := by omega
      subst heq hn
      simp
    · rw [if_neg hr]
      have hrec := ih (retries + 1) (match curBody with | none => none | some _ => buffered)
        (by omega) (by omega)
      simp [hrec.1, hrec.2]

/-- Claim C5: if every attempt receives a retryable status, `Do` makes
exactly `maxRetries + 1 = 6` attempts and then fails with the
distinguished retryable-exhausted error carrying the status received on
the last attempt. -/
theorem c5_retryable_exhausted_after_six_attempts (c : Client) (b : Body)
    (transport : Nat → Nat)
    (h : ∀ i, i ≤ maxRetries → c.isRetryable.contains (transport i) = true) :
    (clientDo c b transport).1.length = 6
    ∧ (clientDo c b transport).2 = .errRetryable (transport maxRetries) := by
  cases b with
  | none =>
    have := doLoop_exhausted c none transport h (maxRetries + 1) 0 none rfl (by omega)
    simpa [clientDo] using this
  | some bs =>
    have := doLoop_exhausted c (some bs) transport h (maxRetries + 1) 0 (some bs) rfl
      (by omega)
    simpa [clientDo] using this

/-- Witness for C5: six consecutive 503 responses produce six attempts
and a retryable-exhausted failure carrying 503. -/
theorem c5_retryable_exhausted_after_six_attempts_witness :
    (clientDo (newClient []) none (fun _ => 503)).1.length = 6
    ∧ (clientDo (newClient []) none (fun _ => 503)).2 = .errRetryable 503 :=
  c5_retryable_exhausted_after_six_attempts (newClient []) none (fun _ => 503)
    (fun _ _ => rfl)

/-- Claim C6: the client's initial retryable set is exactly
{408, 425, 429, 500, 502, 503, 504}; `WithExtraRetryableStatus` extends
it; a status outside it, such as 403, is answered without a retry in a
single attempt unless it has been explicitly added, in which case it is
retried to exhaustion. -/
theorem c6_initial_retryable_set :
    (newClient []).isRetryable = [408, 425, 429, 500, 502, 503, 504]
    ∧ (newClient []).isRetryable.contains 403 = false
    ∧ clientDo (newClient []) none (fun _ => 403) = ([none], .ok 403)
    ∧ (newClient [withExtraRetryableStatus [403]]).isRetryable.contains 403 = true
    ∧ (clientDo (newClient [withExtraRetryableStatus [403]]) none (fun _ => 403)).2
        = .errRetryable 403 := by
  refine ⟨rfl, rfl, by decide, rfl, rfl⟩

/-- Claim C1 evaluated on the code: `ListOffers` carries no `posted_at`
window condition, so at `now = 8 days` the query's associated offer
posted 8 days ago — strictly older than the 7-day window — is still
returned by `list_offers`, contradicting the claimed window
enforcement. -/
theorem c1_list_offers_returns_stale_offer :
    (jobberListOffers 691200 "python" "san francisco" c1DB).1 = .ok ([c1Offer], none)
    ∧ 7 * 24 * 3600 < 691200 - c1Offer.postedAt := by
  constructor
  · rfl
  · decide

/-- Claim C2 evaluated on the code: a `runQuery` tick in which the
adapter returned one offer persists the offer and bumps the
per-scraper `scraped_at`, yet no code path executes `UpdateQueryUAT`,
so the query's `updated_at` stays null and the freshness value
`ListOffers` exposes immediately afterwards is null, not the run
time. -/
theorem c2_updated_at_never_set :
    (jobberListOffers 1001 "golang" "berlin" c2Run.db).1 = .ok ([c2Offer], none)
    ∧ c2Run.db.scraperStatus
        = [{ queryId := 1, scraperName := "Mock", scrapedAt := some 1000 }]
    ∧ c2Run.db.queries.map Query.updatedAt = [none] := by
  refine ⟨rfl, rfl, rfl⟩

/-- Claim C10: the removal tag is the separator-less concatenation
`keywords + location`, so the distinct queries `("ab", "c")` and
`("a", "bc")` get the identical tag `"abc"` on their scheduled jobs,
and the tick that expires query 1 also removes query 2's job through
`RemoveByTags`. -/
theorem c10_tag_concatenation_collision :
    (scheduleQuery ["Mock"] c10Q1 []).map SchedJob.tags = [["abc", "Mock"]]
    ∧ (scheduleQuery ["Mock"] c10Q2 []).map SchedJob.tags = [["abc", "Mock"]]
    ∧ (c10State.jobs.filter (fun j => j.queryId == 2)).length = 1
    ∧ c10Run.2.deletedQuery = true
    ∧ c10Run.1.jobs = [] := by
  refine ⟨rfl, rfl, rfl, rfl, rfl⟩

/-- A list on which `any` is false filters to nothing. -/
theorem filter_eq_nil_of_any_eq_false {α : Type} (p : α → Bool) (l : List α)
    (h : l.any p = false) : l.filter p = [] := by
  induction l with
  | nil => rfl
  | cons x xs ih =>
    simp only [List.any_cons, Bool.or_eq_false_iff] at h
    simp [List.filter_cons, h.1, ih h.2]

/-- Claim C9: creating a query whose natural key is free and then
creating it again returns ok the second time (the unique-violation is
swallowed) and leaves exactly one matching row in `queries`. -/
theorem c9_create_query_idempotent (now1 now2 : Nat) (scrapers : List String)
    (k l : String) (s : JState)
    (h : s.db.queries.any (fun q => q.keywords == k && q.location == l) = false) :
    (jobberCreateQuery now2 scrapers k l
        (jobberCreateQuery now1 scrapers k l s).2).1 = .ok
    ∧ ((jobberCreateQuery now2 scrapers k l
          (jobberCreateQuery now1 scrapers k l s).2).2.db.queries.filter
        (fun q => q.keywords == k && q.location == l)).length = 1 := by
  have hfil := filter_eq_nil_of_any_eq_false _ _ h
  simp [jobberCreateQuery, dbCreateQuery, h, hfil, List.any_append,
    List.filter_append]

/-- Witness for C9: two creations of `("golang", "berlin")` from the
empty state end with ok and a single matching row. -/
theorem c9_create_query_idempotent_witness :
    (jobberCreateQuery 6 ["Mock"] "golang" "berlin"
        (jobberCreateQuery 5 ["Mock"] "golang" "berlin" c9Start).2).1 = .ok
    ∧ ((jobberCreateQuery 6 ["Mock"] "golang" "berlin"
          (jobberCreateQuery 5 ["Mock"] "golang" "berlin" c9Start).2).2.db.queries.filter
        (fun q => q.keywords == "golang" && q.location == "berlin")).length = 1 :=
  c9_create_query_idempotent 5 6 ["Mock"] "golang" "berlin" c9Start rfl

/-- The `GetQueryScraper` never changes the `queries` table. -/
theorem Jobber.dbGetQueryScraper_queries (qid : Nat) (name : String) (db : DB) :
    (dbGetQueryScraper qid name db).2.queries = db.queries := by
  unfold dbGetQueryScraper
  cases db.queries.find? (fun q => q.id == qid) with
  | none => rfl
  | some q =>
    cases db.scraperStatus.find? (fun s => s.queryId == qid && s.scraperName == name) with
    | none => rfl
    | some s => rfl

/-- The `GetQueryScraper` never changes the `query_offers` table. -/
theorem Jobber.dbGetQueryScraper_queryOffers (qid : Nat) (name : String) (db : DB) :
    (dbGetQueryScraper qid name db).2.queryOffers = db.queryOffers := by
  unfold dbGetQueryScraper
  cases db.queries.find? (fun q => q.id == qid) with
  | none => rfl
  | some q =>
    cases db.scraperStatus.find? (fun s => s.queryId == qid && s.scraperName == name) with
    | none => rfl
    | some s => rfl

/-- The `GetQueryScraper` never changes the `offers` table. -/
theorem Jobber.dbGetQueryScraper_offers (qid : Nat) (name : String) (db : DB) :
    (dbGetQueryScraper qid name db).2.offers = db.offers := by
  unfold dbGetQueryScraper
  cases db.queries.find? (fun q => q.id == qid) with
  | none => rfl
  | some q =>
    cases db.scraperStatus.find? (fun s => s.queryId == qid && s.scraperName == name) with
    | none => rfl
    | some s => rfl

/-- When the query row exists, `GetQueryScraper` returns it joined with
some `scraped_at` value. -/
theorem Jobber.dbGetQueryScraper_found (qid : Nat) (name : String) (db : DB)
    (q : Query) (hq : db.queries.find? (fun x => x.id == qid) = some q) :
    ∃ sa, (dbGetQueryScraper qid name db).1 = some (q, sa) := by
  unfold dbGetQueryScraper
  rw [hq]
  cases db.scraperStatus.find? (fun s => s.queryId == qid && s.scraperName == name) with
  | none => exact ⟨none, rfl⟩
  | some s => exact ⟨s.scrapedAt, rfl⟩

/-- Reduction of `runQuery` on the expiration branch: scraper known,
query present, `queried_at` more than 7 days old. -/
theorem Jobber.runQuery_expired (now : Nat) (scrList : List (String × ScrapeOutcome))
    (offerFault assocFault : String → Bool) (qid : Nat) (name : String)
    (s : JState) (q : Query) (nm : String) (outcome : ScrapeOutcome)
    (hscr : scrList.find? (fun p => p.1 == name) = some (nm, outcome))
    (hq : s.db.queries.find? (fun x => x.id == qid) = some q)
    (hexp : 7 * 24 * 3600 < now - q.queriedAt) :
    runQuery now scrList offerFault assocFault qid name s =
      ({ db := dbDeleteQuery q.id (dbGetQueryScraper qid name s.db).2,
         jobs := removeByTag (q.keywords ++ q.location) s.jobs },
       { scraped := false, loggedScrapeErr := false, deletedQuery := true }) := by
  obtain ⟨sa, h1⟩ := dbGetQueryScraper_found qid name s.db q hq
  have hpair : dbGetQueryScraper qid name s.db
      = (some (q, sa), (dbGetQueryScraper qid name s.db).2) := by
    rw [← h1]
  unfold runQuery
  rw [hscr, hpair]
  simp [hexp]

/-- Claim C7: a `runQuery` tick for a query unused for more than 7 days
deletes the query row, cascades its `query_offers` rows, removes every
scheduled job tagged `keywords + location`, does not invoke the
adapter's scrape, and a subsequent `list_offers` on the natural key
answers not-found. -/
theorem c7_expiration_deletes_query (now now2 : Nat)
    (scrList : List (String × ScrapeOutcome))
    (offerFault assocFault : String → Bool) (qid : Nat) (name : String)
    (s : JState) (q : Query) (nm : String) (outcome : ScrapeOutcome)
    (hscr : scrList.find? (fun p => p.1 == name) = some (nm, outcome))
    (hq : s.db.queries.find? (fun x => x.id == qid) = some q)
    (hexp : 7 * 24 * 3600 < now - q.queriedAt)
    (huniq : ∀ x ∈ s.db.queries,
      (x.keywords == q.keywords && x.location == q.location) = true → x.id = q.id) :
    (runQuery now scrList offerFault assocFault qid name s).2.scraped = false
    ∧ (runQuery now scrList offerFault assocFault qid name s).2.deletedQuery = true
    ∧ (∀ x ∈ (runQuery now scrList offerFault assocFault qid name s).1.db.queries,
        ¬ x.id = q.id)
    ∧ (∀ p ∈ (runQuery now scrList offerFault assocFault qid name s).1.db.queryOffers,
        ¬ p.1 = q.id)
    ∧ (∀ j ∈ (runQuery now scrList offerFault assocFault qid name s).1.jobs,
        j.tags.contains (q.keywords ++ q.location) = false)
    ∧ (jobberListOffers now2 q.keywords q.location
        (runQuery now scrList offerFault assocFault qid name s).1.db).1
        = .error .notFound := by
  rw [runQuery_expired now scrList offerFault assocFault qid name s q nm outcome
    hscr hq hexp]
  refine ⟨rfl, rfl, ?_, ?_, ?_, ?_⟩
  · intro x hx
    simp only [dbDeleteQuery, List.mem_filter, Bool.not_eq_eq_eq_not, Bool.not_true,
      beq_eq_false_iff_ne, ne_eq] at hx
    exact hx.2
  · intro p hp
    simp only [dbDeleteQuery, List.mem_filter, Bool.not_eq_eq_eq_not, Bool.not_true,
      beq_eq_false_iff_ne, ne_eq] at hp
    exact hp.2
  · intro j hj
    simp only [removeByTag, List.mem_filter, Bool.not_eq_eq_eq_not, Bool.not_true] at hj
    exact hj.2
  · unfold jobberListOffers dbGetQuery
    rw [List.find?_eq_none.mpr]
    intro x hx
    simp only [dbDeleteQuery, List.mem_filter, dbGetQueryScraper_queries,
      Bool.not_eq_eq_eq_not, Bool.not_true, beq_eq_false_iff_ne, ne_eq] at hx
    intro hpred
    exact hx.2 (huniq x hx.1 hpred)

/-- Witness for C7: the expired query `("ab", "c")` is deleted by the
tick: its association row is cascaded, its job removed, and the feed
lookup afterwards answers not-found. -/
theorem c7_expiration_deletes_query_witness :
    (runQuery 700000 [("Mock", { offers := [], hasErr := false })]
      (fun _ => false) (fun _ => false) 1 "Mock" c7State).2.scraped = false
    ∧ (runQuery 700000 [("Mock", { offers := [], hasErr := false })]
        (fun _ => false) (fun _ => false) 1 "Mock" c7State).2.deletedQuery = true
    ∧ (jobberListOffers 700001 "ab" "c"
        (runQuery 700000 [("Mock", { offers := [], hasErr := false })]
          (fun _ => false) (fun _ => false) 1 "Mock" c7State).1.db).1
        = .error .notFound := by
  have h := c7_expiration_deletes_query 700000 700001
    [("Mock", { offers := [], hasErr := false })] (fun _ => false) (fun _ => false)
    1 "Mock" c7State c7Query "Mock" { offers := [], hasErr := false }
    rfl rfl (by decide) (by decide)
  exact ⟨h.1, h.2.1, h.2.2.2.2.2⟩

/-- After `CreateOffer o`, a row with `o`'s id exists (freshly inserted
or already there, by the conflict clause). -/
theorem Jobber.dbCreateOffer_any_self (o : Offer) (db : DB) :
    (dbCreateOffer o db).offers.any (fun x => x.id == o.id) = true := by
  unfold dbCreateOffer
  split
  · assumption
  · simp [List.any_append]

/-- The `CreateOffer` never removes offer rows. -/
theorem Jobber.dbCreateOffer_any_mono (o : Offer) (db : DB) (i : String)
    (h : db.offers.any (fun x => x.id == i) = true) :
    (dbCreateOffer o db).offers.any (fun x => x.id == i) = true := by
  unfold dbCreateOffer
  split
  · exact h
  · simp [List.any_append, h]

/-- The `CreateQueryOfferAssoc` leaves `offers` untouched. -/
theorem Jobber.dbCreateQueryOfferAssoc_offers (qid : Nat) (oid : String) (db : DB) :
    (dbCreateQueryOfferAssoc qid oid db).offers = db.offers := by
  unfold dbCreateQueryOfferAssoc
  split <;> rfl

/-- After `CreateQueryOfferAssoc`, the association is present (inserted
or already there, by the conflict clause). -/
theorem Jobber.dbCreateQueryOfferAssoc_mem_self (qid : Nat) (oid : String) (db : DB) :
    (qid, oid) ∈ (dbCreateQueryOfferAssoc qid oid db).queryOffers := by
  unfold dbCreateQueryOfferAssoc
  split
  · rename_i h
    rcases List.any_eq_true.mp h with ⟨p, hp, hpred⟩
    simp only [Bool.and_eq_true, beq_iff_eq] at hpred
    have : p = (qid, oid) := Prod.ext hpred.1 hpred.2
    rwa [this] at hp
  · simp

/-- The `CreateQueryOfferAssoc` never removes associations. -/
theorem Jobber.dbCreateQueryOfferAssoc_mem_mono (qid : Nat) (oid : String)
    (a : Nat × String) (db : DB) (h : a ∈ db.queryOffers) :
    a ∈ (dbCreateQueryOfferAssoc qid oid db).queryOffers := by
  unfold dbCreateQueryOfferAssoc
  split
  · exact h
  · simp [h]

/-- Unfolding one step of the persistence loop. -/
theorem Jobber.persistOffers_cons (qid : Nat) (o : Offer) (os : List Offer)
    (offerFault assocFault : String → Bool) (db : DB) :
    persistOffers qid (o :: os) offerFault assocFault db
      = persistOffers qid os offerFault assocFault
          (if offerFault o.id then db
           else if assocFault o.id then dbCreateOffer o db
           else dbCreateQueryOfferAssoc qid o.id (dbCreateOffer o db)) := by
  simp only [persistOffers, List.foldl_cons]

/-- The persistence loop never removes offer rows. -/
theorem Jobber.persistOffers_any_mono (qid : Nat) (os : List Offer)
    (offerFault assocFault : String → Bool) (db : DB) (i : String)
    (h : db.offers.any (fun x => x.id == i) = true) :
    (persistOffers qid os offerFault assocFault db).offers.any
      (fun x => x.id == i) = true := by
  induction os generalizing db with
  | nil => exact h
  | cons o os ih =>
    rw [persistOffers_cons]
    apply ih
    by_cases h1 : offerFault o.id = true
    · simpa [h1] using h
    · have h2 := dbCreateOffer_any_mono o db i h
      by_cases h3 : assocFault o.id = true
      · simpa [h1, h3] using h2
      · simp only [h1, h3, Bool.false_eq_true, if_false]
        rw [dbCreateQueryOfferAssoc_offers]
        exact h2

/-- The `CreateOffer` leaves `query_offers` untouched. -/
theorem Jobber.dbCreateOffer_queryOffers (o : Offer) (db : DB) :
    (dbCreateOffer o db).queryOffers = db.queryOffers := by
  unfold dbCreateOffer
  split <;> rfl

/-- The persistence loop never removes associations. -/
theorem Jobber.persistOffers_mem_mono (qid : Nat) (os : List Offer)
    (offerFault assocFault : String → Bool) (db : DB) (a : Nat × String)
    (h : a ∈ db.queryOffers) :
    a ∈ (persistOffers qid os offerFault assocFault db).queryOffers := by
  induction os generalizing db with
  | nil => exact h
  | cons o os ih =>
    rw [persistOffers_cons]
    apply ih
    by_cases h1 : offerFault o.id = true
    · simpa [h1] using h
    · by_cases h3 : assocFault o.id = true
      · simp only [h1, h3, Bool.false_eq_true, if_false, if_true]
        rw [dbCreateOffer_queryOffers]
        exact h
      · simp only [h1, h3, Bool.false_eq_true, if_false]
        apply dbCreateQueryOfferAssoc_mem_mono
        rw [dbCreateOffer_queryOffers]
        exact h

/-- Every offer of the batch whose insert does not fault ends up in
`offers`, and — when its association insert does not fault either — its
association ends up in `query_offers`, independently of what happens to
the other offers of the batch. -/
theorem Jobber.persistOffers_persists (qid : Nat) (os : List Offer)
    (offerFault assocFault : String → Bool) (db : DB) :
    ∀ o ∈ os, offerFault o.id = false →
      ((persistOffers qid os offerFault assocFault db).offers.any
          (fun x => x.id == o.id) = true
       ∧ (assocFault o.id = false →
          (qid, o.id) ∈ (persistOffers qid os offerFault assocFault db).queryOffers)) := by
  induction os generalizing db with
  | nil => intro o ho; exact absurd ho (List.not_mem_nil o)
  | cons x xs ih =>
    intro o ho hof
    rcases List.mem_cons.mp ho with heq | hmem
    · subst heq
      rw [persistOffers_cons, hof]
      simp only [Bool.false_eq_true, if_false]
      by_cases haf : assocFault o.id = true
      · rw [if_pos haf]
        constructor
        · exact persistOffers_any_mono qid xs offerFault assocFault _ o.id
            (dbCreateOffer_any_self o db)
        · intro hcontra
          rw [hcontra] at haf
          exact absurd haf (by simp)
      · rw [if_neg haf]
        constructor
        · apply persistOffers_any_mono
          rw [dbCreateQueryOfferAssoc_offers]
          exact dbCreateOffer_any_self o db
        · intro _
          apply persistOffers_mem_mono
          exact dbCreateQueryOfferAssoc_mem_self qid o.id (dbCreateOffer o db)
    · rw [persistOffers_cons]
      exact ih _ o hmem hof

/-- Reduction of `runQuery` on the ordinary scrape branch with a
non-empty offer slice: scraper known, query present and fresh. -/
theorem Jobber.runQuery_fresh (now : Nat) (scrList : List (String × ScrapeOutcome))
    (offerFault assocFault : String → Bool) (qid : Nat) (name : String)
    (s : JState) (q : Query) (nm : String) (outcome : ScrapeOutcome)
    (hscr : scrList.find? (fun p => p.1 == name) = some (nm, outcome))
    (hq : s.db.queries.find? (fun x => x.id == qid) = some q)
    (hfresh : ¬ (7 * 24 * 3600 < now - q.queriedAt))
    (hne : 0 < outcome.offers.length) :
    runQuery now scrList offerFault assocFault qid name s =
      ({ db := dbUpdateQueryScrapedAt now qid name
            (persistOffers q.id outcome.offers offerFault assocFault
              (dbGetQueryScraper qid name s.db).2),
         jobs := s.jobs },
       { scraped := true, loggedScrapeErr := outcome.hasErr, deletedQuery := false }) := by
  obtain ⟨sa, h1⟩ := dbGetQueryScraper_found qid name s.db q hq
  have hpair : dbGetQueryScraper qid name s.db
      = (some (q, sa), (dbGetQueryScraper qid name s.db).2) := by
    rw [← h1]
  unfold runQuery
  rw [hscr, hpair]
  simp [hfresh, hne]

/-- The `UpdateQueryScrapedAt` leaves `offers` untouched. -/
theorem Jobber.dbUpdateQueryScrapedAt_offers (now qid : Nat) (name : String) (db : DB) :
    (dbUpdateQueryScrapedAt now qid name db).offers = db.offers := rfl

/-- The `UpdateQueryScrapedAt` leaves `query_offers` untouched. -/
theorem Jobber.dbUpdateQueryScrapedAt_queryOffers (now qid : Nat) (name : String)
    (db : DB) :
    (dbUpdateQueryScrapedAt now qid name db).queryOffers = db.queryOffers := rfl

/-- Claim C8: when the adapter returns a non-empty offer slice together
with an error, the tick still runs ingestion — the scrape error is only
logged (`runQuery` returns nothing, so nothing is propagated) — and
every offer whose insert does not fault is persisted, with its
association when that insert does not fault either, regardless of
faults on the other offers of the batch. -/
theorem c8_partial_success (now : Nat) (scrList : List (String × ScrapeOutcome))
    (offerFault assocFault : String → Bool) (qid : Nat) (name : String)
    (s : JState) (q : Query) (nm : String) (outcome : ScrapeOutcome)
    (hscr : scrList.find? (fun p => p.1 == name) = some (nm, outcome))
    (hq : s.db.queries.find? (fun x => x.id == qid) = some q)
    (hfresh : ¬ (7 * 24 * 3600 < now - q.queriedAt))
    (hne : 0 < outcome.offers.length) :
    (runQuery now scrList offerFault assocFault qid name s).2
      = { scraped := true, loggedScrapeErr := outcome.hasErr, deletedQuery := false }
    ∧ ∀ o ∈ outcome.offers, offerFault o.id = false →
        ((runQuery now scrList offerFault assocFault qid name s).1.db.offers.any
            (fun x => x.id == o.id) = true
         ∧ (assocFault o.id = false →
            (q.id, o.id) ∈ (runQuery now scrList offerFault assocFault qid
              name s).1.db.queryOffers)) := by
  rw [runQuery_fresh now scrList offerFault assocFault qid name s q nm outcome
    hscr hq hfresh hne]
  refine ⟨rfl, ?_⟩
  intro o ho hof
  have h := persistOffers_persists q.id outcome.offers offerFault assocFault
    (dbGetQueryScraper qid name s.db).2 o ho hof
  constructor
  · rw [dbUpdateQueryScrapedAt_offers]
    exact h.1
  · intro haf
    rw [dbUpdateQueryScrapedAt_queryOffers]
    exact h.2 haf

/-- Witness for C8: the batch `[F, B]` with a scrape error and a
faulting insert for `F` still persists `B` and its association, and the
trace records the logged error. -/
theorem c8_partial_success_witness :
    (runQuery 2000 [("Mock", { offers := [c8OfferF, c8OfferB], hasErr := true })]
        (fun i => i == "F") (fun _ => false) 1 "Mock" c8State).2
      = { scraped := true, loggedScrapeErr := true, deletedQuery := false }
    ∧ (runQuery 2000 [("Mock", { offers := [c8OfferF, c8OfferB], hasErr := true })]
        (fun i => i == "F") (fun _ => false) 1 "Mock" c8State).1.db.offers.any
        (fun x => x.id == c8OfferB.id) = true
    ∧ (1, c8OfferB.id) ∈ (runQuery 2000
        [("Mock", { offers := [c8OfferF, c8OfferB], hasErr := true })]
        (fun i => i == "F") (fun _ => false) 1 "Mock" c8State).1.db.queryOffers := by
  have h := c8_partial_success 2000
    [("Mock", { offers := [c8OfferF, c8OfferB], hasErr := true })]
    (fun i => i == "F") (fun _ => false) 1 "Mock" c8State c8Query "Mock"
    { offers := [c8OfferF, c8OfferB], hasErr := true } rfl rfl (by decide) (by decide)
  have hB := h.2 c8OfferB (by decide) (by decide)
  exact ⟨h.1, hB.1, hB.2 rfl⟩
